import Mathlib

/-!
# RTags clang indexer (`src/Clang.cpp`): type resolver and AST visitors

A shallow embedding of the indexing core of `src/src/Clang.cpp`.

The front-end's type system and AST are library types that the file only
queries; here they appear as plain data:

* a type node is a natural number (its identity; the source compares type
  nodes by pointer), and the queries the source makes on a type node are the
  fields of `TypeAPI`;
* a declaration that an expression refers to is a natural number, and the
  queries the source makes on it are the fields of `DeclEnv`;
* everything the source writes with `error() << ...` is one `Fact` of the
  emitted stream.
-/

namespace RTags

/-- Identity of a front-end type node (`const clang::Type*`). -/
abbrev Ty := Nat

/-- Identity of a front-end declaration node (`const clang::Decl*`). -/
abbrev DeclId := Nat

/-- The queries `typeLocation` makes on a type node.  A null pointer result is
`none`.  Each record query is composed with the location printing the source
applies to its result (`->getDecl()->getLocation().printToString(*sm)` or
`->getLocation().printToString(*sm)`), done by `declLocation`. -/
structure TypeAPI where
  /-- The record declaration of `t->getAsStructureType()`. -/
  getAsStructureType : Ty → Option DeclId
  /-- The record declaration of `t->getAsUnionType()`. -/
  getAsUnionType : Ty → Option DeclId
  /-- The result of `t->getAsCXXRecordDecl()`. -/
  getAsCXXRecordDecl : Ty → Option DeclId
  /-- The result of `t->getPointeeCXXRecordDecl()`. -/
  getPointeeCXXRecordDecl : Ty → Option DeclId
  /-- The result of `t->isPointerType()`. -/
  isPointerType : Ty → Bool
  /-- The node `t->getPointeeType().getSplitDesugaredType().Ty`. -/
  pointeeDesugared : Ty → Option Ty
  /-- The result of `t->getAs<const clang::TemplateSpecializationType>()`:
  `none` when null, otherwise the (possibly null) declaration
  `tt->getTemplateName().getAsTemplateDecl()`. -/
  getAsTemplateSpecialization : Ty → Option (Option DeclId)
  /-- The result of `t->isLValueReferenceType()`. -/
  isLValueReferenceType : Ty → Bool
  /-- The result of `t->isRValueReferenceType()`. -/
  isRValueReferenceType : Ty → Bool
  /-- The node `t->getCanonicalTypeUnqualified().getNonReferenceType().split().Ty`. -/
  canonicalNonReference : Ty → Option Ty
  /-- The node `t->getCanonicalTypeUnqualified().split().Ty`. -/
  canonical : Ty → Option Ty
  /-- The string `getLocation().printToString(*sm)` of a declaration. -/
  declLocation : DeclId → String

/-- The guarded recursive call shared by the pointer, reference and fallback
branches of `typeLocation`: `if (st.Ty && st.Ty != t) return rec(st.Ty);`
followed by the final `return std::string();`. -/
def guardedRecurse (rec : Ty → Option String) (t : Ty) : Option Ty → Option String
  | some p => if p ≠ t then rec p else some ""
  | none => some ""

/-- Embedding of `typeLocation` (Clang.cpp:56-87).  The first argument bounds
the depth of the recursion; `none` means the bound was reached before the
function returned, `some s` is the returned string (`""` is the empty
`std::string()` of the last line). -/
def typeLocation (api : TypeAPI) : Nat → Ty → Option String
  | 0, _ => none
  | fuel + 1, t =>
    match api.getAsStructureType t with
    | some d => some (api.declLocation d)
    | none =>
    match api.getAsUnionType t with
    | some d => some (api.declLocation d)
    | none =>
    match api.getAsCXXRecordDecl t with
    | some d => some (api.declLocation d)
    | none =>
    match api.getPointeeCXXRecordDecl t with
    | some d => some (api.declLocation d)
    | none =>
    if api.isPointerType t then
      guardedRecurse (typeLocation api fuel) t (api.pointeeDesugared t)
    else
    match api.getAsTemplateSpecialization t with
    | some tt =>
      match tt with
      | some d => some (api.declLocation d)
      | none => some ""
    | none =>
    if api.isLValueReferenceType t || api.isRValueReferenceType t then
      guardedRecurse (typeLocation api fuel) t (api.canonicalNonReference t)
    else
      guardedRecurse (typeLocation api fuel) t (api.canonical t)

/-- The four record queries of `typeLocation`, tried in the source's order:
the declaration found by the first one that succeeds. -/
def firstRecordDecl (api : TypeAPI) (t : Ty) : Option DeclId :=
  match api.getAsStructureType t with
  | some d => some d
  | none =>
  match api.getAsUnionType t with
  | some d => some d
  | none =>
  match api.getAsCXXRecordDecl t with
  | some d => some d
  | none => api.getPointeeCXXRecordDecl t

/-- A small C program's types, used as a concrete instance:
`struct Node { struct Node *next; }; typedef struct Node *NP;`
with nodes `0 = struct Node`, `1 = struct Node *`, `2 = NP`, `3 = NP &`,
`4 = int`, `5 = int *`, `6 = int **`, `7 = typedef int I`.  In C a record is
not a C++ class, so the two C++ record queries fail everywhere. -/
def nodeApi : TypeAPI where
  getAsStructureType := fun t => if t = 0 then some 100 else none
  getAsUnionType := fun _ => none
  getAsCXXRecordDecl := fun _ => none
  getPointeeCXXRecordDecl := fun _ => none
  isPointerType := fun t => t = 1 || t = 2 || t = 5 || t = 6
  pointeeDesugared := fun t =>
    if t = 1 ∨ t = 2 then some 0
    else if t = 5 then some 4
    else if t = 6 then some 5
    else none
  getAsTemplateSpecialization := fun _ => none
  isLValueReferenceType := fun t => t = 3
  isRValueReferenceType := fun _ => false
  canonicalNonReference := fun t => if t = 3 then some 1 else some (if t = 2 then 1 else if t = 7 then 4 else t)
  canonical := fun t => some (if t = 2 then 1 else if t = 7 then 4 else t)
  declLocation := fun d => if d = 100 then "node.c:1:8" else ""

/-- Structural size of the canonical form of each node of `nodeApi`. -/
def nodeRank (t : Ty) : Nat :=
  if t = 0 ∨ t = 4 ∨ t = 7 then 0
  else if t = 1 ∨ t = 2 ∨ t = 5 then 1
  else 2

/-- A small C++ program's types: `class C {}; typedef C TC;` with nodes
`0 = C`, `1 = TC` (canonical type `C`), `2 = C *`, `3 = TC &`.  `C` is declared
with the `class` keyword, so the structure and union queries fail. -/
def classApi : TypeAPI where
  getAsStructureType := fun _ => none
  getAsUnionType := fun _ => none
  getAsCXXRecordDecl := fun t => if t = 0 ∨ t = 1 then some 200 else none
  getPointeeCXXRecordDecl := fun t => if t = 2 then some 200 else none
  isPointerType := fun t => t = 2
  pointeeDesugared := fun t => if t = 2 then some 0 else none
  getAsTemplateSpecialization := fun _ => none
  isLValueReferenceType := fun t => t = 3
  isRValueReferenceType := fun _ => false
  canonicalNonReference := fun t => some (if t = 1 ∨ t = 3 then 0 else t)
  canonical := fun t => some (if t = 1 then 0 else t)
  declLocation := fun d => if d = 200 then "c.cpp:1:7" else ""

/-- The measure that decreases along the recursion of `typeLocation`: twice the
rank of the node, plus one when the node is not its own canonical type. -/
def typeMeasure (api : TypeAPI) (rank : Ty → Nat) (t : Ty) : Nat :=
  2 * rank t + (if api.canonical t = some t then 0 else 1)

/-! ## Declarations referred to by expressions -/

/-- The queries the source makes on a declaration node it only refers to. -/
structure DeclEnv where
  /-- The string `getQualifiedNameAsString()` when the node is a `NamedDecl`,
  `none` when it is not. -/
  qualifiedName : DeclId → Option String
  /-- The string `getLocStart().printToString(*sm)`. -/
  locStart : DeclId → String
  /-- The string `getDeclKindName()`. -/
  kindName : DeclId → String
  /-- The result of `clang::isa<clang::VarDecl>(decl)`. -/
  isVarDecl : DeclId → Bool
  /-- The result of `vd->getDefinition()` on a variable declaration. -/
  getDefinition : DeclId → Option DeclId

/-- Embedding of `getDeclName` (Clang.cpp:32-36). -/
def getDeclName (env : DeclEnv) (d : DeclId) : String :=
  match env.qualifiedName d with
  | some n => n
  | none => ""

/-- Embedding of `getDeclLoc` (Clang.cpp:38-41). -/
def getDeclLoc (env : DeclEnv) (d : DeclId) : String :=
  env.locStart d

/-- Embedding of `definition` (Clang.cpp:43-54); `none` is the null pointer. -/
def definition (env : DeclEnv) : Option DeclId → Option DeclId
  | none => none
  | some decl =>
    if env.isVarDecl decl then
      match env.getDefinition decl with
      | some d => some d
      | none => some decl
    else some decl

/-! ## The emitted stream -/

/-- One line written by an `error() << ...` statement of the visitors. -/
inductive Fact where
  /-- Line 204: `"func decl" << getDeclName(D) << getDeclLoc(D, sm)`. -/
  | funcDecl (name loc : String)
  /-- Line 233: `"got var" << getDeclName(D) << getDeclLoc(D, sm)`. -/
  | gotVar (name loc : String)
  /-- Line 238: `"  " << clang::QualType::getAsString(st)`. -/
  | varType (type : String)
  /-- Line 240: `"    defined at" << typeLocation(st.Ty, sm)`. -/
  | definedAt (loc : String)
  /-- Line 278: `"got cxx record" << getDeclName(D) << getDeclLoc(D, sm)`. -/
  | gotCxxRecord (name loc : String)
  /-- Line 391: `"decl ref" << Node->getLocation().printToString(*sm)`. -/
  | declRef (site : String)
  /-- Line 433: `"member expr" << Node->getExprLoc().printToString(*sm)`. -/
  | memberExpr (site : String)
  /-- Line 461: `"call expr"`. -/
  | callExpr
  /-- Lines 395, 436, 464:
  `" -> " << getDeclName(decl) << getDeclLoc(decl, sm) << decl->getDeclKindName()`. -/
  | target (name loc kind : String)
  deriving DecidableEq, Repr

/-- A symbol fact: the line that announces a visited declaration. -/
def Fact.isSymbol : Fact → Bool
  | .funcDecl _ _ => true
  | .gotVar _ _ => true
  | .gotCxxRecord _ _ => true
  | _ => false

/-- A reference fact: the line that announces a use site (name reference,
member access or call); its target, when there is one, is the `target` line
that follows it. -/
def Fact.isReference : Fact → Bool
  | .declRef _ => true
  | .memberExpr _ => true
  | .callExpr => true
  | _ => false

/-- What one traversal does, in order: a declaration handed to the Declaration
Visitor (`ConstDeclVisitor::Visit(d)` at line 153), or a line emitted. -/
inductive Event where
  | dispatch (d : DeclId)
  | emit (f : Fact)
  deriving DecidableEq, Repr

abbrev Trace := List Event

/-- The facts of a trace, in order. -/
def facts : Trace → List Fact
  | [] => []
  | Event.emit f :: es => f :: facts es
  | Event.dispatch _ :: es => facts es

/-- The declarations dispatched in a trace, in order. -/
def dispatched : Trace → List DeclId
  | [] => []
  | Event.dispatch d :: es => d :: dispatched es
  | Event.emit _ :: es => dispatched es

/-- The `" -> "` line for a resolved declaration. -/
def targetFact (env : DeclEnv) (d : DeclId) : Fact :=
  Fact.target (getDeclName env d) (getDeclLoc env d) (env.kindName d)

/-- The guarded `" -> "` line: `if (decl) error() << " -> " << ...`. -/
def targetLine (env : DeclEnv) : Option DeclId → Trace
  | some d => [Event.emit (targetFact env d)]
  | none => []

/-- Sequential composition of two steps that may each fail to return:
the second runs after the first has returned. -/
def andThen (a b : Option Trace) : Option Trace :=
  match a with
  | none => none
  | some x =>
    match b with
    | none => none
    | some y => some (x ++ y)

/-! ## The syntax tree -/

/-- The declared type of a variable as `VisitVarDecl` sees it: the split
desugared type `st = D->getType().getSplitDesugaredType()`. -/
structure VarType where
  /-- The string `clang::QualType::getAsString(st)`. -/
  desugaredName : String
  /-- The node `st.Ty` (`none` when null). -/
  desugaredTy : Option Ty
  deriving DecidableEq, Repr

mutual
/-- Declaration nodes, by the handler of `RTagsDeclVisitor` that receives them.
Child pointers are `Option`: `none` is a null pointer. -/
inductive Decl where
  /-- A `FunctionDecl` (functions, methods, constructors).  `inits` is the
  constructor initializer list, empty when the node is not a constructor. -/
  | function (id : DeclId) (inits : List CtorInit) (params : List (Option Decl))
      (body : Option Stmt)
  /-- A `VarDecl` (variables and parameters).  `type` is `none` when
  `D->getType().isNull()`; `init` is `none` when `!D->hasInit()`. -/
  | var (id : DeclId) (type : Option VarType) (init : Option Stmt)
  /-- A `FieldDecl` with its in-class initializer. -/
  | field (id : DeclId) (init : Option Stmt)
  /-- An `EnumConstantDecl` with its initializer expression. -/
  | enumConstant (id : DeclId) (init : Option Stmt)
  /-- A `StaticAssertDecl`. -/
  | staticAssert (id : DeclId) (assertExpr : Option Stmt) (message : Option Stmt)
  /-- A `CXXRecordDecl` with its member declarations. -/
  | cxxRecord (id : DeclId) (members : List (Option Decl))
  /-- Any other declaration kind (its handler is empty or the visitor's
  default), with the declarations it contains. -/
  | other (id : DeclId) (members : List (Option Decl))
/-- One `CXXCtorInitializer`, by the branch of lines 211-217 it takes (an
initializer is a member, a base or a delegating initializer). -/
inductive CtorInit where
  /-- `isAnyMemberInitializer()`: the member `getAnyMember()` and `getInit()`. -/
  | member (field : Option Decl) (init : Option Stmt)
  /-- `isBaseInitializer()`. -/
  | base (init : Option Stmt)
  /-- `isDelegatingInitializer()`. -/
  | delegating (init : Option Stmt)
/-- Statement and expression nodes, by the handler that receives them. -/
inductive Stmt where
  /-- A `DeclStmt` with the declarations `decl_begin() .. decl_end()`. -/
  | declStmt (decls : List (Option Decl))
  /-- A `DeclRefExpr`: `getLocation()` printed, and `getDecl()`.  No children. -/
  | declRefExpr (site : String) (decl : Option DeclId)
  /-- A `MemberExpr`: `getExprLoc()` printed, `getMemberDecl()`, and its one
  child, the base expression. -/
  | memberExpr (site : String) (member : Option DeclId) (base : Option Stmt)
  /-- A `CallExpr`: `getCalleeDecl()`, the callee expression and the arguments
  `getArgs()[0 .. getNumArgs())`.  Its children are the callee followed by
  the arguments. -/
  | callExpr (calleeDecl : Option DeclId) (callee : Option Stmt) (args : List (Option Stmt))
  /-- Any other statement kind (its handler is empty or the visitor's
  default), with its children. -/
  | other (children : List (Option Stmt))
end

/-- What the visitors are closed over: the declaration queries, the type
queries, and the bound given to each call of `typeLocation`. -/
structure Ctx where
  env : DeclEnv
  types : TypeAPI
  typeFuel : Nat

/-- Embedding of `VisitDeclRefExpr` (Clang.cpp:389-397). -/
def VisitDeclRefExpr (env : DeclEnv) (site : String) (decl : Option DeclId) : Trace :=
  Event.emit (Fact.declRef site) :: targetLine env (definition env decl)

/-- Embedding of `VisitMemberExpr` (Clang.cpp:431-437). -/
def VisitMemberExpr (env : DeclEnv) (site : String) (member : Option DeclId) : Trace :=
  Event.emit (Fact.memberExpr site) :: targetLine env (definition env member)

/-- The lines of `VisitVarDecl` (Clang.cpp:233-242) that precede the visit of
the initializer.  `none` when the call of `typeLocation` does not return
within the bound. -/
def varDeclLines (ctx : Ctx) (id : DeclId) : Option VarType → Option Trace
  | none => some [Event.emit (Fact.gotVar (getDeclName ctx.env id) (getDeclLoc ctx.env id))]
  | some vt =>
    match vt.desugaredTy with
    | none =>
      some [Event.emit (Fact.gotVar (getDeclName ctx.env id) (getDeclLoc ctx.env id)),
            Event.emit (Fact.varType vt.desugaredName)]
    | some ty =>
      match typeLocation ctx.types ctx.typeFuel ty with
      | none => none
      | some loc =>
        some [Event.emit (Fact.gotVar (getDeclName ctx.env id) (getDeclLoc ctx.env id)),
              Event.emit (Fact.varType vt.desugaredName),
              Event.emit (Fact.definedAt loc)]

/-- The identity of a declaration node. -/
def declId : Decl → DeclId
  | .function id _ _ _ => id
  | .var id _ _ => id
  | .field id _ => id
  | .enumConstant id _ => id
  | .staticAssert id _ _ => id
  | .cxxRecord id _ => id
  | .other id _ => id

/-- The children of a statement node (`s->children()`), in order. -/
def children : Stmt → List (Option Stmt)
  | .declStmt _ => []
  | .declRefExpr _ _ => []
  | .memberExpr _ _ base => [base]
  | .callExpr _ callee args => callee :: args
  | .other cs => cs

/-- The first lines of `VisitCallExpr` (Clang.cpp:461-464), before the
argument loop. -/
def callLines (env : DeclEnv) (calleeDecl : Option DeclId) : Trace :=
  Event.emit Fact.callExpr :: targetLine env calleeDecl

mutual
/-- Embedding of `visitDecl` (Clang.cpp:150-154). -/
def visitDecl (ctx : Ctx) : Option Decl → Option Trace
  | none => some []
  | some d => andThen (some [Event.dispatch (declId d)]) (Visit ctx d)
/-- The dispatch `ConstDeclVisitor<RTagsDeclVisitor>::Visit(d)` to the handler
of the node's kind: `VisitFunctionDecl` (202-222), `VisitVarDecl` (231-246),
`VisitFieldDecl` (224-229), `VisitEnumConstantDecl` (191-196),
`VisitStaticAssertDecl` (281-285), `VisitCXXRecordDecl` (276-279); the other
handlers are empty. -/
def Visit (ctx : Ctx) : Decl → Option Trace
  | .function id inits _ body =>
    andThen (some [Event.emit (Fact.funcDecl (getDeclName ctx.env id) (getDeclLoc ctx.env id))])
      (andThen (visitInits ctx inits) (visitStmt ctx body))
  | .var id type init => andThen (varDeclLines ctx id type) (visitStmt ctx init)
  | .field _ init => visitStmt ctx init
  | .enumConstant _ init => visitStmt ctx init
  | .staticAssert _ assertExpr message =>
    andThen (visitStmt ctx assertExpr) (visitStmt ctx message)
  | .cxxRecord id _ =>
    some [Event.emit (Fact.gotCxxRecord (getDeclName ctx.env id) (getDeclLoc ctx.env id))]
  | .other _ _ => some []
/-- The loop over the constructor initializers in `VisitFunctionDecl`
(Clang.cpp:207-219). -/
def visitInits (ctx : Ctx) : List CtorInit → Option Trace
  | [] => some []
  | .member field init :: rest =>
    andThen (visitDecl ctx field) (andThen (visitStmt ctx init) (visitInits ctx rest))
  | .base init :: rest => andThen (visitStmt ctx init) (visitInits ctx rest)
  | .delegating init :: rest => andThen (visitStmt ctx init) (visitInits ctx rest)
/-- Embedding of `visitStmt` (Clang.cpp:156-173): the null check, the
`DeclStmt` case, then the handler of the node's kind
(`ConstStmtVisitor<RTagsDeclVisitor>::Visit(s)`) followed by the loop over
`s->children()`.  The handlers are `VisitDeclRefExpr`, `VisitMemberExpr` and
`VisitCallExpr` (its lines, then its argument loop); the others are empty. -/
def visitStmt (ctx : Ctx) : Option Stmt → Option Trace
  | none => some []
  | some (.declStmt decls) => VisitDeclStmt ctx decls
  | some (.declRefExpr site decl) => some (VisitDeclRefExpr ctx.env site decl)
  | some (.memberExpr site member base) =>
    andThen (some (VisitMemberExpr ctx.env site member))
      (andThen (visitStmt ctx base) (some []))
  | some (.callExpr calleeDecl callee args) =>
    andThen (andThen (some (callLines ctx.env calleeDecl)) (visitChildren ctx args))
      (andThen (visitStmt ctx callee) (visitChildren ctx args))
  | some (.other cs) => visitChildren ctx cs
/-- Embedding of `VisitDeclStmt` (Clang.cpp:359-366). -/
def VisitDeclStmt (ctx : Ctx) : List (Option Decl) → Option Trace
  | [] => some []
  | d :: rest => andThen (visitDecl ctx d) (VisitDeclStmt ctx rest)
/-- The loop `visitStmt(x)` over a sequence of statement pointers, in order:
the child loop of `visitStmt` (Clang.cpp:166-172) and the argument loop of
`VisitCallExpr` (Clang.cpp:467-469). -/
def visitChildren (ctx : Ctx) : List (Option Stmt) → Option Trace
  | [] => some []
  | s :: rest => andThen (visitStmt ctx s) (visitChildren ctx rest)
end

/-- Embedding of `VisitCallExpr` (Clang.cpp:459-470). -/
def VisitCallExpr (ctx : Ctx) (calleeDecl : Option DeclId) (args : List (Option Stmt)) :
    Option Trace :=
  andThen (some (callLines ctx.env calleeDecl)) (visitChildren ctx args)

/-- The handler `ConstStmtVisitor<RTagsDeclVisitor>::Visit(s)` runs for a
statement node that is not a `DeclStmt`. -/
def VisitStmtNode (ctx : Ctx) : Stmt → Option Trace
  | .declStmt decls => VisitDeclStmt ctx decls
  | .declRefExpr site decl => some (VisitDeclRefExpr ctx.env site decl)
  | .memberExpr site member _ => some (VisitMemberExpr ctx.env site member)
  | .callExpr calleeDecl _ args => VisitCallExpr ctx calleeDecl args
  | .other _ => some []

/-! ## The traversal coordinator -/

/-- What a `Traverse*` function of the tree walk does: its trace and the
`bool` it returns. -/
structure Walk where
  trace : Trace
  result : Bool
  deriving DecidableEq, Repr

/-- The tree walk's `TRY_TO(CALL)` followed by the rest of the function:
when the call returns `false` the function returns `false` at once. -/
def tryTo (a b : Option Walk) : Option Walk :=
  match a with
  | none => none
  | some x =>
    if x.result then
      match b with
      | none => none
      | some y => some ⟨x.trace ++ y.trace, y.result⟩
    else some x

/-- A step of the Declaration Visitor inside the walk: it returns nothing, so
the walk goes on. -/
def ranVisitor (a : Option Trace) : Option Walk :=
  match a with
  | none => none
  | some t => some ⟨t, true⟩

mutual
/-- Embedding of `RTagsASTConsumer::TraverseDecl` (Clang.cpp:542-549);
`aborted` is the member `mAborted`. -/
def TraverseDecl (ctx : Ctx) (aborted : Bool) : Option Decl → Option Walk
  | none => if aborted then some ⟨[], true⟩ else some ⟨[], true⟩
  | some d =>
    if aborted then some ⟨[], true⟩
    else tryTo (ranVisitor (visitDecl ctx (some d))) (baseTraverseDecl ctx aborted d)
/-- Modelled from the spec: `base::TraverseDecl`, the front-end's generic tree
walk (`clang::RecursiveASTVisitor`), which is not part of the repository.  It
recurses into the children of a declaration and hands every declaration it
discovers to the derived `TraverseDecl`: the parameters of a function, then
the initializer expressions of a constructor, then the body; the initializer
of a variable, field or enumerator; both expressions of a static assertion;
the member declarations of a record or other declaration context. -/
def baseTraverseDecl (ctx : Ctx) (aborted : Bool) : Decl → Option Walk
  | .function _ inits params body =>
    tryTo (traverseDecls ctx aborted params)
      (tryTo (traverseInits ctx aborted inits) (TraverseStmt ctx aborted body))
  | .var _ _ init => TraverseStmt ctx aborted init
  | .field _ init => TraverseStmt ctx aborted init
  | .enumConstant _ init => TraverseStmt ctx aborted init
  | .staticAssert _ assertExpr message =>
    tryTo (TraverseStmt ctx aborted assertExpr) (TraverseStmt ctx aborted message)
  | .cxxRecord _ members => traverseDecls ctx aborted members
  | .other _ members => traverseDecls ctx aborted members
/-- Modelled from the spec: the generic walk over the constructor
initializers, which walks each initializer expression. -/
def traverseInits (ctx : Ctx) (aborted : Bool) : List CtorInit → Option Walk
  | [] => some ⟨[], true⟩
  | .member _ init :: rest =>
    tryTo (TraverseStmt ctx aborted init) (traverseInits ctx aborted rest)
  | .base init :: rest =>
    tryTo (TraverseStmt ctx aborted init) (traverseInits ctx aborted rest)
  | .delegating init :: rest =>
    tryTo (TraverseStmt ctx aborted init) (traverseInits ctx aborted rest)
/-- Modelled from the spec: `base::TraverseStmt`, the generic walk over a
statement tree.  The consumer overrides no statement hook, so the walk emits
nothing itself; it hands each declaration of a declaration-statement to the
derived `TraverseDecl` and recurses into the children of any other node. -/
def TraverseStmt (ctx : Ctx) (aborted : Bool) : Option Stmt → Option Walk
  | none => some ⟨[], true⟩
  | some (.declStmt decls) => traverseDecls ctx aborted decls
  | some (.declRefExpr _ _) => some ⟨[], true⟩
  | some (.memberExpr _ _ base) => TraverseStmt ctx aborted base
  | some (.callExpr _ callee args) =>
    tryTo (TraverseStmt ctx aborted callee) (traverseStmts ctx aborted args)
  | some (.other cs) => traverseStmts ctx aborted cs
/-- Modelled from the spec: the generic walk over a sequence of declarations
(the children of a declaration, or the declarations of a
declaration-statement), each handed to the derived `TraverseDecl`. -/
def traverseDecls (ctx : Ctx) (aborted : Bool) : List (Option Decl) → Option Walk
  | [] => some ⟨[], true⟩
  | d :: rest => tryTo (TraverseDecl ctx aborted d) (traverseDecls ctx aborted rest)
/-- Modelled from the spec: the generic walk over a sequence of child
statements. -/
def traverseStmts (ctx : Ctx) (aborted : Bool) : List (Option Stmt) → Option Walk
  | [] => some ⟨[], true⟩
  | s :: rest => tryTo (TraverseStmt ctx aborted s) (traverseStmts ctx aborted rest)
end

/-- Embedding of `RTagsASTConsumer::HandleTranslationUnit` (Clang.cpp:533-538):
the trace of `TraverseDecl(D)` on the translation unit declaration. -/
def HandleTranslationUnit (ctx : Ctx) (aborted : Bool) (tu : Decl) : Option Trace :=
  match TraverseDecl ctx aborted (some tu) with
  | none => none
  | some w => some w.trace

/-! ## Concrete programs -/

/-- The declarations of `int add(int a,int b){ return a+b; }`:
`0` the translation unit, `1` the function `add`, `2` and `3` its parameters.
A non-variable is not asked for its definition; each parameter of a function
definition is its own definition. -/
def addEnv : DeclEnv where
  qualifiedName := fun d =>
    if d = 1 then some "add" else if d = 2 then some "a" else if d = 3 then some "b" else none
  locStart := fun d =>
    if d = 1 then "add.c:1:1" else if d = 2 then "add.c:1:9" else if d = 3 then "add.c:1:15"
    else ""
  kindName := fun d =>
    if d = 1 then "Function" else if d = 2 ∨ d = 3 then "ParmVar" else "TranslationUnit"
  isVarDecl := fun d => d = 2 || d = 3
  getDefinition := fun d => if d = 2 ∨ d = 3 then some d else none

/-- The type `int` of the parameters: node `4` of `nodeApi`. -/
def intType : VarType := ⟨"int", some 4⟩

/-- The body `{ return a+b; }`: a compound statement holding a return
statement holding a binary operator whose operands are the two name
references, each under an implicit lvalue-to-rvalue cast. -/
def addBody : Stmt :=
  .other [some (.other [some (.other
    [some (.other [some (.declRefExpr "add.c:1:27" (some 2))]),
     some (.other [some (.declRefExpr "add.c:1:29" (some 3))])])])]

/-- The function `int add(int a,int b){ return a+b; }`. -/
def addDecl : Decl :=
  .function 1 [] [some (.var 2 (some intType) none), some (.var 3 (some intType) none)]
    (some addBody)

/-- The translation unit consisting of `add` alone. -/
def addUnit : Decl := .other 0 [some addDecl]

/-- The context in which the concrete programs are indexed. -/
def addCtx : Ctx := ⟨addEnv, nodeApi, 8⟩

/-- The declarations of `void g(int); void h(int x){ g(x); }`:
`10` the function `g`, `11` the parameter `x`. -/
def callEnv : DeclEnv where
  qualifiedName := fun d => if d = 10 then some "g" else if d = 11 then some "x" else none
  locStart := fun d => if d = 10 then "call.c:1:1" else if d = 11 then "call.c:2:8" else ""
  kindName := fun d => if d = 10 then "Function" else if d = 11 then "ParmVar" else ""
  isVarDecl := fun d => d = 11
  getDefinition := fun d => if d = 11 then some 11 else none

/-- The context in which `g(x)` is visited. -/
def callCtx : Ctx := ⟨callEnv, nodeApi, 8⟩

/-- The callee expression of `g(x)`: the name reference `g` under an implicit
function-to-pointer cast. -/
def calleeExpr : Stmt := .other [some (.declRefExpr "call.c:2:19" (some 10))]

/-- The argument expression of `g(x)`: the name reference `x` under an
implicit lvalue-to-rvalue cast. -/
def argExpr : Stmt := .other [some (.declRefExpr "call.c:2:21" (some 11))]

/-- The call expression `g(x)`. -/
def callGx : Stmt := .callExpr (some 10) (some calleeExpr) [some argExpr]

/-- The declarations of `void f(){ int x; }`: `0` the translation unit,
`1` the function `f`, `2` the local variable `x`. -/
def localEnv : DeclEnv where
  qualifiedName := fun d => if d = 1 then some "f" else if d = 2 then some "x" else none
  locStart := fun d => if d = 1 then "local.c:1:1" else if d = 2 then "local.c:1:11" else ""
  kindName := fun d => if d = 1 then "Function" else if d = 2 then "Var" else "TranslationUnit"
  isVarDecl := fun d => d = 2
  getDefinition := fun d => if d = 2 then some 2 else none

/-- The context in which `void f(){ int x; }` is indexed. -/
def localCtx : Ctx := ⟨localEnv, nodeApi, 8⟩

/-- The local variable `int x;`. -/
def localVar : Decl := .var 2 (some intType) none

/-- The translation unit `void f(){ int x; }`: the body is a compound
statement holding one declaration-statement. -/
def localUnit : Decl :=
  .other 0 [some (.function 1 [] [] (some (.other [some (.declStmt [some localVar])])))]

/-- The declarations of `extern int v; int v = 1;`: `20` the declaration,
`21` the definition. -/
def varEnv : DeclEnv where
  qualifiedName := fun d => if d = 20 ∨ d = 21 then some "v" else none
  locStart := fun d => if d = 20 then "v.c:1:1" else if d = 21 then "v.c:2:1" else ""
  kindName := fun d => if d = 20 ∨ d = 21 then "Var" else ""
  isVarDecl := fun d => d = 20 || d = 21
  getDefinition := fun d => if d = 20 ∨ d = 21 then some 21 else none

/-! ## The front-end driver -/

/-- The flags `RTagsCompilationDatabase` passes to `Source::toCommandLine`
(Clang.cpp:96-100); the source combines them with `|`. -/
inductive CommandLineFlag where
  | FilterBlacklist
  | IncludeDefines
  | IncludeIncludepaths
  | IncludeSourceFile
  | IncludeLibClangOptions
  deriving DecidableEq, Repr

/-- What the driver reads from a `Source`, a class declared outside this
file: the member `pwd`, `sourceFile()` and `toCommandLine(flags)`. -/
structure Source where
  pwd : String
  sourceFile : String
  toCommandLine : List CommandLineFlag → List String

/-- The front-end's `clang::tooling::CompileCommand`, with the three members
the constructor fills. -/
structure CompileCommand where
  Directory : String
  CommandLine : List String
  /-- Pairs of a file path and the content that stands for it. -/
  MappedSources : List (String × String)
  deriving DecidableEq, Repr

/-- The members of the class `RTagsCompilationDatabase` (Clang.cpp:131-133). -/
structure RTagsCompilationDatabase where
  mCommand : CompileCommand
  mSource : Source
  mUnsaved : String

/-- The flag set of Clang.cpp:96-100. -/
def commandLineFlags : List CommandLineFlag :=
  [.FilterBlacklist, .IncludeDefines, .IncludeIncludepaths, .IncludeSourceFile,
   .IncludeLibClangOptions]

/-- Embedding of the constructor of `RTagsCompilationDatabase`
(Clang.cpp:92-111).  The source gives `unsaved` the default value `String()`,
the empty string; here a caller that omits it passes `""`. -/
def RTagsCompilationDatabase.create (source : Source) (unsaved : String) :
    RTagsCompilationDatabase where
  mCommand :=
    { Directory := source.pwd
      CommandLine := source.toCommandLine commandLineFlags
      MappedSources := if unsaved.isEmpty then [] else [(source.sourceFile, unsaved)] }
  mSource := source
  mUnsaved := unsaved

/-- Embedding of `getAllFiles` (Clang.cpp:121-124). -/
def RTagsCompilationDatabase.getAllFiles (db : RTagsCompilationDatabase) : List String :=
  [db.mSource.sourceFile]

/-- Embedding of `getAllCompileCommands` (Clang.cpp:126-129). -/
def RTagsCompilationDatabase.getAllCompileCommands (db : RTagsCompilationDatabase) :
    List CompileCommand :=
  [db.mCommand]

/-- Embedding of `getCompileCommands` (Clang.cpp:113-119); `isSameFile` is
`Path::isSameFile`, declared outside this file. -/
def RTagsCompilationDatabase.getCompileCommands (isSameFile : String → String → Bool)
    (db : RTagsCompilationDatabase) (file : String) : List CompileCommand :=
  if isSameFile file db.mSource.sourceFile then db.getAllCompileCommands else []

/-- What one call of `Clang::index` does: the compilation database and the
file list it builds the front-end tool from, the code the tool run returns
(zero is success), and the `bool` that `index` itself returns. -/
structure IndexRun where
  compilationDatabase : RTagsCompilationDatabase
  files : List String
  toolResult : Int
  returned : Bool

/-- Embedding of `Clang::index` (Clang.cpp:658-665).  `run` is the front-end's
`ClangTool(database, files).run(&factory)`.  The database is constructed from
`source` alone, so its `unsaved` is the default empty string. -/
def Clang.index (run : RTagsCompilationDatabase → List String → Int) (source : Source)
    (unsaved : String) : IndexRun :=
  let compilationDatabase := RTagsCompilationDatabase.create source ""
  let files := compilationDatabase.getAllFiles
  let toolResult := run compilationDatabase files
  { compilationDatabase := compilationDatabase
    files := files
    toolResult := toolResult
    returned := true }

/-- A source file `/proj/main.c` compiled in `/proj`. -/
def mainSource : Source where
  pwd := "/proj"
  sourceFile := "/proj/main.c"
  toCommandLine := fun _ => ["clang", "-c", "/proj/main.c"]

/-- A tool run that fails on every input (the front-end returns `1` when an
error occurred, for instance when the file does not exist). -/
def failingRun : RTagsCompilationDatabase → List String → Int :=
  fun _ _ => 1

/-! ## Type resolver: auxiliary lemmas -/

theorem typeLocation_succ_of_firstRecordDecl_none (api : TypeAPI) (t : Ty) (fuel : Nat)
    (h : firstRecordDecl api t = none) :
    typeLocation api (fuel + 1) t =
      if api.isPointerType t then
        guardedRecurse (typeLocation api fuel) t (api.pointeeDesugared t)
      else
      match api.getAsTemplateSpecialization t with
      | some tt =>
        match tt with
        | some d => some (api.declLocation d)
        | none => some ""
      | none =>
      if api.isLValueReferenceType t || api.isRValueReferenceType t then
        guardedRecurse (typeLocation api fuel) t (api.canonicalNonReference t)
      else
        guardedRecurse (typeLocation api fuel) t (api.canonical t) := by
  unfold firstRecordDecl at h
  cases h1 : api.getAsStructureType t with
  | some d => simp [h1] at h
  | none =>
    cases h2 : api.getAsUnionType t with
    | some d => simp [h1, h2] at h
    | none =>
      cases h3 : api.getAsCXXRecordDecl t with
      | some d => simp [h1, h2, h3] at h
      | none =>
        cases h4 : api.getPointeeCXXRecordDecl t with
        | some d => simp [h1, h2, h3, h4] at h
        | none => simp only [typeLocation, h1, h2, h3, h4]

theorem typeLocation_succ_of_firstRecordDecl_some (api : TypeAPI) (t : Ty) (fuel : Nat)
    (d : DeclId) (h : firstRecordDecl api t = some d) :
    typeLocation api (fuel + 1) t = some (api.declLocation d) := by
  unfold firstRecordDecl at h
  cases h1 : api.getAsStructureType t with
  | some d1 =>
    simp only [h1, Option.some.injEq] at h
    simp only [typeLocation, h1, h]
  | none =>
    cases h2 : api.getAsUnionType t with
    | some d2 =>
      simp only [h1, h2, Option.some.injEq] at h
      simp only [typeLocation, h1, h2, h]
    | none =>
      cases h3 : api.getAsCXXRecordDecl t with
      | some d3 =>
        simp only [h1, h2, h3, Option.some.injEq] at h
        simp only [typeLocation, h1, h2, h3, h]
      | none =>
        simp only [h1, h2, h3] at h
        simp only [typeLocation, h1, h2, h3, h]

theorem typeMeasure_le (api : TypeAPI) (rank : Ty → Nat) (t : Ty) :
    typeMeasure api rank t ≤ 2 * rank t + 1 := by
  unfold typeMeasure
  split <;> omega

theorem typeLocation_of_measure (api : TypeAPI) (rank : Ty → Nat)
    (hcanon : ∀ t c, api.canonical t = some c → api.canonical c = some c)
    (hrank : ∀ t c, api.canonical t = some c → rank c ≤ rank t)
    (hptr : ∀ t p, api.isPointerType t = true → api.pointeeDesugared t = some p →
      rank p < rank t)
    (href : ∀ t r, (api.isLValueReferenceType t || api.isRValueReferenceType t) = true →
      api.canonicalNonReference t = some r → rank r < rank t) :
    ∀ (n : Nat) (t : Ty), typeMeasure api rank t < n →
      ∃ s, ∀ fuel, n ≤ fuel → typeLocation api fuel t = some s := by
  intro n
  induction n with
  | zero => intro t h; omega
  | succ n ih =>
    intro t hm
    cases hrec : firstRecordDecl api t with
    | some d =>
      refine ⟨api.declLocation d, ?_⟩
      intro fuel hf
      obtain ⟨k, rfl⟩ : ∃ k, fuel = k + 1 := ⟨fuel - 1, by omega⟩
      exact typeLocation_succ_of_firstRecordDecl_some api t k d hrec
    | none =>
      -- the recursive call, when made on `u`, is on a node of smaller measure
      have key : ∀ (o : Option Ty), (∀ u, o = some u → u ≠ t → typeMeasure api rank u < n) →
          ∃ s, ∀ k, n ≤ k → guardedRecurse (typeLocation api k) t o = some s := by
        intro o ho
        cases o with
        | none => exact ⟨"", fun k _ => rfl⟩
        | some u =>
          by_cases hu : u = t
          · exact ⟨"", fun k _ => by simp [guardedRecurse, hu]⟩
          · obtain ⟨s, hs⟩ := ih u (ho u rfl hu)
            exact ⟨s, fun k hk => by simp [guardedRecurse, hu, hs k hk]⟩
      have wrap : ∀ (F : Nat → Option String),
          (∀ k, typeLocation api (k + 1) t = F k) →
          (∃ s, ∀ k, n ≤ k → F k = some s) →
          ∃ s, ∀ fuel, n + 1 ≤ fuel → typeLocation api fuel t = some s := by
        intro F hF ⟨s, hs⟩
        refine ⟨s, ?_⟩
        intro fuel hf
        obtain ⟨k, rfl⟩ : ∃ k, fuel = k + 1 := ⟨fuel - 1, by omega⟩
        rw [hF k]
        exact hs k (by omega)
      by_cases hp : api.isPointerType t = true
      · refine wrap (fun k => guardedRecurse (typeLocation api k) t (api.pointeeDesugared t))
          (fun k => by
            rw [typeLocation_succ_of_firstRecordDecl_none api t k hrec]; simp [hp]) ?_
        apply key
        intro u hu _
        have h1 := hptr t u hp hu
        have h2 := typeMeasure_le api rank u
        have h3 : 2 * rank t ≤ typeMeasure api rank t := by unfold typeMeasure; omega
        omega
      · cases htt : api.getAsTemplateSpecialization t with
        | some tt =>
          cases tt with
          | some d =>
            exact wrap (fun _ => some (api.declLocation d))
              (fun k => by
                rw [typeLocation_succ_of_firstRecordDecl_none api t k hrec]; simp [hp, htt])
              ⟨_, fun _ _ => rfl⟩
          | none =>
            exact wrap (fun _ => some "")
              (fun k => by
                rw [typeLocation_succ_of_firstRecordDecl_none api t k hrec]; simp [hp, htt])
              ⟨_, fun _ _ => rfl⟩
        | none =>
          by_cases hr : (api.isLValueReferenceType t || api.isRValueReferenceType t) = true
          · refine wrap
              (fun k => guardedRecurse (typeLocation api k) t (api.canonicalNonReference t))
              (fun k => by
                rw [typeLocation_succ_of_firstRecordDecl_none api t k hrec]
                simp only [hp, htt, hr]; simp) ?_
            apply key
            intro u hu _
            have h1 := href t u hr hu
            have h2 := typeMeasure_le api rank u
            have h3 : 2 * rank t ≤ typeMeasure api rank t := by unfold typeMeasure; omega
            omega
          · refine wrap (fun k => guardedRecurse (typeLocation api k) t (api.canonical t))
              (fun k => by
                rw [typeLocation_succ_of_firstRecordDecl_none api t k hrec]
                simp only [hp, htt, hr]; simp) ?_
            apply key
            intro u hu hne
            have h1 := hrank t u hu
            have h2 : typeMeasure api rank u = 2 * rank u := by
              unfold typeMeasure; simp [hcanon t u hu]
            have h3 : typeMeasure api rank t = 2 * rank t + 1 := by
              unfold typeMeasure
              have : api.canonical t ≠ some t := by
                rw [hu]; intro h; exact hne (Option.some.inj h)
              simp [this]
            omega

theorem nodeApi_canonical_idem :
    ∀ t c, nodeApi.canonical t = some c → nodeApi.canonical c = some c := by
  intro t c h
  simp only [nodeApi, Option.some.injEq] at h
  subst h
  by_cases h2 : t = 2
  · subst h2; decide
  · by_cases h7 : t = 7
    · subst h7; decide
    · simp [nodeApi, h2, h7]

theorem nodeApi_canonical_rank :
    ∀ t c, nodeApi.canonical t = some c → nodeRank c ≤ nodeRank t := by
  intro t c h
  simp only [nodeApi, Option.some.injEq] at h
  subst h
  by_cases h2 : t = 2
  · subst h2; decide
  · by_cases h7 : t = 7
    · subst h7; decide
    · simp [h2, h7]

theorem nodeApi_pointee_rank :
    ∀ t p, nodeApi.isPointerType t = true → nodeApi.pointeeDesugared t = some p →
      nodeRank p < nodeRank t := by
  intro t p _ h
  simp only [nodeApi] at h
  split_ifs at h with h1 h5 h6
  · rcases h1 with rfl | rfl <;> (cases h; decide)
  · subst h5; cases h; decide
  · subst h6; cases h; decide

theorem nodeApi_referent_rank :
    ∀ t r, (nodeApi.isLValueReferenceType t || nodeApi.isRValueReferenceType t) = true →
      nodeApi.canonicalNonReference t = some r → nodeRank r < nodeRank t := by
  intro t r ht h
  have h3 : t = 3 := by simpa [nodeApi] using ht
  subst h3
  cases h
  decide

/-! ## Type resolver: the claims -/

/-- C1: `typeLocation` terminates on every type.  Given that the canonical type
of a canonical type is itself, and a rank of types (the proper-component
order) that canonicalization does not raise and that is strictly smaller for
the pointee of a pointer type and for the non-reference type of a reference
type, every call `typeLocation(t)` returns: with a recursion bound of
`2 * rank t + 2` or more it yields a string, the same for every such bound.
Each recursive call is on a node of smaller `typeMeasure`. -/
theorem typeLocation_terminates (api : TypeAPI) (rank : Ty → Nat)
    (hcanon : ∀ t c, api.canonical t = some c → api.canonical c = some c)
    (hrank : ∀ t c, api.canonical t = some c → rank c ≤ rank t)
    (hptr : ∀ t p, api.isPointerType t = true → api.pointeeDesugared t = some p →
      rank p < rank t)
    (href : ∀ t r, (api.isLValueReferenceType t || api.isRValueReferenceType t) = true →
      api.canonicalNonReference t = some r → rank r < rank t)
    (t : Ty) :
    ∃ s, ∀ fuel, 2 * rank t + 2 ≤ fuel → typeLocation api fuel t = some s :=
  typeLocation_of_measure api rank hcanon hrank hptr href (2 * rank t + 2) t
    (by have := typeMeasure_le api rank t; omega)

/-- C1 at `NP &`, a reference to a typedef of a pointer to the self-referential
`struct Node`. -/
theorem typeLocation_terminates_witness :
    ∃ s, ∀ fuel, 2 * nodeRank 3 + 2 ≤ fuel → typeLocation nodeApi fuel 3 = some s :=
  typeLocation_terminates nodeApi nodeRank nodeApi_canonical_idem nodeApi_canonical_rank
    nodeApi_pointee_rank nodeApi_referent_rank 3

/-- C2: when one of the four record queries succeeds on `t`, `typeLocation(t)`
returns the location of the declaration found by the first that succeeds,
whatever the other queries answer on `t` and without a recursive call (a
recursion bound of one already suffices). -/
theorem typeLocation_record_first (api : TypeAPI) (t : Ty) (d : DeclId) (fuel : Nat)
    (h : firstRecordDecl api t = some d) :
    typeLocation api (fuel + 1) t = some (api.declLocation d) ∧
      typeLocation api 1 t = some (api.declLocation d) :=
  ⟨typeLocation_succ_of_firstRecordDecl_some api t fuel d h,
   typeLocation_succ_of_firstRecordDecl_some api t 0 d h⟩

/-- C2 at the typedef `TC` of the class `C`: it resolves to the location of
the class declaration although its canonical type is another node. -/
theorem typeLocation_record_first_witness :
    classApi.canonical 1 = some 0 ∧
      typeLocation classApi (0 + 1) 1 = some "c.cpp:1:7" ∧
      typeLocation classApi 1 1 = some "c.cpp:1:7" :=
  ⟨by decide, typeLocation_record_first classApi 1 200 0 (by decide)⟩

/-- C3: on a type that matches no record rule, a pointer type resolves to what
its desugared pointee resolves to when that node is non-null and differs from
the type, and to the empty location otherwise; a reference type that is no
pointer and no template specialization resolves to what its canonical
non-reference type resolves to under the same guard, and to the empty location
otherwise.  The canonical type of `t` plays no part in either case. -/
theorem typeLocation_pointer_reference (api : TypeAPI) (t : Ty) (fuel : Nat)
    (hrec : firstRecordDecl api t = none) :
    (api.isPointerType t = true →
      (∀ p, api.pointeeDesugared t = some p → p ≠ t →
        typeLocation api (fuel + 1) t = typeLocation api fuel p) ∧
      (api.pointeeDesugared t = none ∨ api.pointeeDesugared t = some t →
        typeLocation api (fuel + 1) t = some "")) ∧
    (api.isPointerType t = false → api.getAsTemplateSpecialization t = none →
      (api.isLValueReferenceType t = true ∨ api.isRValueReferenceType t = true) →
      (∀ r, api.canonicalNonReference t = some r → r ≠ t →
        typeLocation api (fuel + 1) t = typeLocation api fuel r) ∧
      (api.canonicalNonReference t = none ∨ api.canonicalNonReference t = some t →
        typeLocation api (fuel + 1) t = some "")) := by
  rw [typeLocation_succ_of_firstRecordDecl_none api t fuel hrec]
  refine ⟨?_, ?_⟩
  · intro hp
    refine ⟨?_, ?_⟩
    · intro p hpt hne
      simp [hp, hpt, guardedRecurse, hne]
    · rintro (h | h) <;> simp [hp, h, guardedRecurse]
  · intro hp htt hr
    have hr' : (api.isLValueReferenceType t || api.isRValueReferenceType t) = true := by
      rcases hr with h | h <;> simp [h]
    refine ⟨?_, ?_⟩
    · intro r hrt hne
      simp [hp, htt, hr', hrt, guardedRecurse, hne]
    · rintro (h | h) <;> simp [hp, htt, hr', h, guardedRecurse]

/-- C3 at `int **` (pointee `int *`) and at `NP &` (non-reference type
`struct Node *`) of `nodeApi`. -/
theorem typeLocation_pointer_reference_witness :
    typeLocation nodeApi (2 + 1) 6 = typeLocation nodeApi 2 5 ∧
      typeLocation nodeApi (2 + 1) 3 = typeLocation nodeApi 2 1 :=
  ⟨((typeLocation_pointer_reference nodeApi 6 2 (by decide)).1 (by decide)).1 5
      (by decide) (by decide),
   ((typeLocation_pointer_reference nodeApi 3 2 (by decide)).2 (by decide) (by decide)
      (Or.inl (by decide))).1 1 (by decide) (by decide)⟩

/-! ## Visitors: auxiliary lemmas -/

theorem andThen_some (x y : Trace) : andThen (some x) (some y) = some (x ++ y) := rfl

theorem andThen_nil_left (b : Option Trace) : andThen (some []) b = b := by
  cases b <;> rfl

theorem andThen_nil_right (a : Option Trace) : andThen a (some []) = a := by
  cases a <;> simp [andThen]

theorem andThen_assoc (a b c : Option Trace) :
    andThen (andThen a b) c = andThen a (andThen b c) := by
  cases a <;> cases b <;> cases c <;> simp [andThen]

theorem visitChildren_eq_foldr (ctx : Ctx) (cs : List (Option Stmt)) :
    visitChildren ctx cs = cs.foldr (fun c acc => andThen (visitStmt ctx c) acc) (some []) := by
  induction cs with
  | nil => simp [visitChildren]
  | cons c rest ih => simp [visitChildren, ih]

theorem VisitDeclStmt_eq_foldr (ctx : Ctx) (ds : List (Option Decl)) :
    VisitDeclStmt ctx ds = ds.foldr (fun d acc => andThen (visitDecl ctx d) acc) (some []) := by
  induction ds with
  | nil => simp [VisitDeclStmt]
  | cons d rest ih => simp [VisitDeclStmt, ih]

theorem foldr_andThen_of_map_eq {α : Type} (f : α → Option Trace) :
    ∀ (xs : List α) (traces : List Trace), xs.map f = traces.map some →
      xs.foldr (fun x acc => andThen (f x) acc) (some []) =
        some (traces.foldr (fun t acc => t ++ acc) []) := by
  intro xs
  induction xs with
  | nil =>
    intro traces h
    cases traces with
    | nil => rfl
    | cons t ts => simp at h
  | cons x rest ih =>
    intro traces h
    cases traces with
    | nil => simp at h
    | cons t ts =>
      simp only [List.map_cons, List.cons.injEq] at h
      simp only [List.foldr_cons, ih ts h.2, h.1, andThen_some]

/-- For a statement node that is not a declaration-statement, `visitStmt` runs
the node's handler and then visits the node's children in order. -/
theorem visitStmt_handler_then_children (ctx : Ctx) (s : Stmt)
    (hs : ∀ decls, s ≠ Stmt.declStmt decls) :
    visitStmt ctx (some s) = andThen (VisitStmtNode ctx s) (visitChildren ctx (children s)) := by
  cases s with
  | declStmt decls => exact absurd rfl (hs decls)
  | declRefExpr site decl =>
    simp [visitStmt, VisitStmtNode, children, visitChildren, andThen]
  | memberExpr site member base =>
    simp [visitStmt, VisitStmtNode, children, visitChildren]
  | callExpr calleeDecl callee args =>
    simp [visitStmt, VisitStmtNode, VisitCallExpr, children, visitChildren]
  | other cs =>
    simp [visitStmt, VisitStmtNode, children, andThen_nil_left]

theorem varEnv_getDefinition :
    ∀ d e, varEnv.getDefinition d = some e → varEnv.getDefinition e = some e := by
  intro d e h
  simp only [varEnv] at h
  split_ifs at h
  cases h
  decide

/-! ## Visitors: the claims -/

/-- C4: for a name reference and for a member access whose referenced
declaration `d` is non-null, the emitted reference is the site line followed
by one target line whose name, location and kind are those of
`definition(d)`; `definition(d)` is the variable's definition when `d` is a
variable declaration that has one and `d` itself otherwise;
`definition(null)` is null; and `definition` is idempotent, given that the
front-end's `getDefinition` answers a declaration that is its own
definition. -/
theorem reference_target_from_definition (env : DeclEnv)
    (hdef : ∀ d e, env.getDefinition d = some e → env.getDefinition e = some e) :
    (∀ site d, ∃ t, definition env (some d) = some t ∧
      VisitDeclRefExpr env site (some d) =
        [Event.emit (Fact.declRef site),
         Event.emit (Fact.target (getDeclName env t) (getDeclLoc env t) (env.kindName t))]) ∧
    (∀ site d, ∃ t, definition env (some d) = some t ∧
      VisitMemberExpr env site (some d) =
        [Event.emit (Fact.memberExpr site),
         Event.emit (Fact.target (getDeclName env t) (getDeclLoc env t) (env.kindName t))]) ∧
    (∀ d e, env.isVarDecl d = true → env.getDefinition d = some e →
      definition env (some d) = some e) ∧
    (∀ d, env.isVarDecl d = false ∨ env.getDefinition d = none →
      definition env (some d) = some d) ∧
    definition env none = none ∧
    (∀ x, definition env (definition env x) = definition env x) := by
  have hsome : ∀ d, ∃ t, definition env (some d) = some t := by
    intro d
    simp only [definition]
    split_ifs
    · cases env.getDefinition d <;> simp
    · exact ⟨d, rfl⟩
  refine ⟨?_, ?_, ?_, ?_, rfl, ?_⟩
  · intro site d
    obtain ⟨t, ht⟩ := hsome d
    exact ⟨t, ht, by simp [VisitDeclRefExpr, ht, targetLine, targetFact]⟩
  · intro site d
    obtain ⟨t, ht⟩ := hsome d
    exact ⟨t, ht, by simp [VisitMemberExpr, ht, targetLine, targetFact]⟩
  · intro d e hv he
    simp [definition, hv, he]
  · rintro d (h | h)
    · simp [definition, h]
    · simp only [definition]
      split_ifs <;> simp [h]
  · intro x
    cases x with
    | none => rfl
    | some d =>
      by_cases hv : env.isVarDecl d = true
      · cases he : env.getDefinition d with
        | none => simp [definition, hv, he]
        | some e =>
          have h1 : definition env (some d) = some e := by simp [definition, hv, he]
          rw [h1]
          simp only [definition]
          split_ifs <;> simp [hdef d e he]
      · have h1 : definition env (some d) = some d := by simp [definition, hv]
        rw [h1, h1]

/-- C4 at a use of `v` in `extern int v; int v = 1;` that refers to the first
declaration: `definition` is stable on it. -/
theorem reference_target_from_definition_witness :
    definition varEnv (some 20) = some 21 ∧
      definition varEnv (definition varEnv (some 20)) = definition varEnv (some 20) :=
  ⟨by decide, (reference_target_from_definition varEnv varEnv_getDefinition).2.2.2.2.2 (some 20)⟩

/-- C5, as stated, fails: visiting a name reference whose declaration is null
emits a line (the site line), so the stream is not unchanged. -/
theorem unresolved_reference_counterexample :
    facts (VisitDeclRefExpr addEnv "add.c:1:27" none) = [Fact.declRef "add.c:1:27"] ∧
      visitStmt addCtx (some (Stmt.declRefExpr "add.c:1:27" none)) ≠ some [] := by
  decide

/-- C5, amended: for a name reference and for a member access whose referenced
declaration is null, the handler emits exactly one line, the site line of the
reference, and no target line. -/
theorem unresolved_reference_emits_site_only (env : DeclEnv) (site : String) :
    VisitDeclRefExpr env site none = [Event.emit (Fact.declRef site)] ∧
      VisitMemberExpr env site none = [Event.emit (Fact.memberExpr site)] :=
  ⟨rfl, rfl⟩

/-- C6: `VisitCallExpr` emits one call line, followed by a target line exactly
when the callee declaration is non-null, followed by the visits of the
argument expressions in order; with a null callee the call line is still
emitted and every argument is still visited. -/
theorem VisitCallExpr_emits_call (ctx : Ctx) (calleeDecl : Option DeclId)
    (args : List (Option Stmt)) :
    VisitCallExpr ctx calleeDecl args =
      Option.map
        (fun out =>
          Event.emit Fact.callExpr ::
            ((match calleeDecl with
              | some d =>
                [Event.emit (Fact.target (getDeclName ctx.env d) (getDeclLoc ctx.env d)
                  (ctx.env.kindName d))]
              | none => []) ++ out))
        (args.foldr (fun a acc => andThen (visitStmt ctx a) acc) (some [])) := by
  rw [← visitChildren_eq_foldr]
  unfold VisitCallExpr callLines
  cases visitChildren ctx args with
  | none => rfl
  | some out => cases calleeDecl <;> rfl

/-- C7 fails on a call expression: visiting `g(x)` emits the facts of the
argument `x` twice, once from the argument loop of the call handler and once
from the child loop of `visitStmt`, so the stream is not the node's own fact
followed by each child's facts once. -/
theorem visitStmt_call_visits_arguments_twice :
    Option.map facts (visitStmt callCtx (some callGx)) =
      some [Fact.callExpr, Fact.target "g" "call.c:1:1" "Function",
            Fact.declRef "call.c:2:21", Fact.target "x" "call.c:2:8" "ParmVar",
            Fact.declRef "call.c:2:19", Fact.target "g" "call.c:1:1" "Function",
            Fact.declRef "call.c:2:21", Fact.target "x" "call.c:2:8" "ParmVar"] ∧
      visitStmt callCtx (some callGx) ≠
        andThen (some (callLines callEnv (some 10))) (visitChildren callCtx (children callGx)) := by
  decide

/-- C8: visiting a declaration-statement hands each of its declarations to
`visitDecl` once, in order, and does nothing else: the trace is the traces of
those `visitDecl` calls, concatenated. -/
theorem visitStmt_declStmt (ctx : Ctx) (decls : List (Option Decl)) :
    visitStmt ctx (some (Stmt.declStmt decls)) =
        decls.foldr (fun d acc => andThen (visitDecl ctx d) acc) (some []) ∧
      ∀ traces : List Trace, decls.map (visitDecl ctx) = traces.map some →
        visitStmt ctx (some (Stmt.declStmt decls)) =
          some (traces.foldr (fun t acc => t ++ acc) []) := by
  have h : visitStmt ctx (some (Stmt.declStmt decls)) = VisitDeclStmt ctx decls := by
    simp [visitStmt]
  rw [h, VisitDeclStmt_eq_foldr]
  exact ⟨rfl, foldr_andThen_of_map_eq (visitDecl ctx) decls⟩

/-- C8 at the declaration-statement `int x;`. -/
theorem visitStmt_declStmt_witness :
    visitStmt localCtx (some (Stmt.declStmt [some localVar])) =
      some ([[Event.dispatch 2, Event.emit (Fact.gotVar "x" "local.c:1:11"),
              Event.emit (Fact.varType "int"), Event.emit (Fact.definedAt "")]].foldr
            (fun t acc => t ++ acc) []) :=
  (visitStmt_declStmt localCtx [some localVar]).2 _ (by decide)

/-- C9 fails on a local variable: indexing `void f(){ int x; }` hands `x` to
the Declaration Visitor twice, once from the declaration-statement of the
function body walked by `VisitFunctionDecl` and once from the `TraverseDecl`
hook of the generic walk. -/
theorem local_variable_dispatched_twice :
    Option.map dispatched (HandleTranslationUnit localCtx false localUnit) =
        some [0, 1, 2, 2] ∧
      Option.map (fun t => (dispatched t).count 2)
        (HandleTranslationUnit localCtx false localUnit) = some 2 := by
  decide

/-- C10, as stated, fails: indexing `int add(int a,int b){ return a+b; }`
emits two reference facts and three symbol facts. -/
theorem add_counterexample :
    Option.map (fun t => (facts t).countP Fact.isReference)
        (HandleTranslationUnit addCtx false addUnit) = some 2 ∧
      Option.map (fun t => (facts t).countP Fact.isSymbol)
        (HandleTranslationUnit addCtx false addUnit) = some 3 ∧
      Option.map (fun t => (facts t).countP Fact.isReference)
        (visitDecl addCtx (some addDecl)) = some 2 := by
  decide

/-- C10, amended: indexing `int add(int a,int b){ return a+b; }` emits the
symbol fact of `add`, then one reference fact for each use of `a` and `b` in
the body, each with the parameter as its target, then the symbol fact of each
parameter with its type lines. -/
theorem add_facts :
    Option.map facts (HandleTranslationUnit addCtx false addUnit) =
      some [Fact.funcDecl "add" "add.c:1:1",
            Fact.declRef "add.c:1:27", Fact.target "a" "add.c:1:9" "ParmVar",
            Fact.declRef "add.c:1:29", Fact.target "b" "add.c:1:15" "ParmVar",
            Fact.gotVar "a" "add.c:1:9", Fact.varType "int", Fact.definedAt "",
            Fact.gotVar "b" "add.c:1:15", Fact.varType "int", Fact.definedAt ""] := by
  decide

/-! ## Front-end driver and abort flag: auxiliary lemmas -/

theorem create_mappedSources_of_nonempty (source : Source) (unsaved : String)
    (h : unsaved.isEmpty = false) :
    (RTagsCompilationDatabase.create source unsaved).mCommand.MappedSources =
      [(source.sourceFile, unsaved)] := by
  simp [RTagsCompilationDatabase.create, h]

theorem index_mappedSources_nil (run : RTagsCompilationDatabase → List String → Int)
    (source : Source) (unsaved : String) :
    (Clang.index run source unsaved).compilationDatabase.getAllCompileCommands.map
      CompileCommand.MappedSources = [[]] := by
  simp [Clang.index, RTagsCompilationDatabase.create,
    RTagsCompilationDatabase.getAllCompileCommands, String.isEmpty]

theorem index_returned_true (run : RTagsCompilationDatabase → List String → Int)
    (source : Source) (unsaved : String) :
    (Clang.index run source unsaved).returned = true := rfl

theorem TraverseDecl_of_aborted (ctx : Ctx) (d : Option Decl) :
    TraverseDecl ctx true d = some ⟨[], true⟩ := by
  cases d <;> simp [TraverseDecl]

theorem traverseDecls_of_aborted (ctx : Ctx) (ds : List (Option Decl)) :
    traverseDecls ctx true ds = some ⟨[], true⟩ := by
  induction ds with
  | nil => simp [traverseDecls]
  | cons d rest ih => simp [traverseDecls, TraverseDecl_of_aborted, ih, tryTo]

mutual
theorem TraverseStmt_of_aborted (ctx : Ctx) :
    ∀ s : Option Stmt, TraverseStmt ctx true s = some ⟨[], true⟩
  | none => by simp [TraverseStmt]
  | some (.declStmt decls) => by simp [TraverseStmt, traverseDecls_of_aborted]
  | some (.declRefExpr _ _) => by simp [TraverseStmt]
  | some (.memberExpr _ _ base) => by
    simp [TraverseStmt, TraverseStmt_of_aborted ctx base]
  | some (.callExpr _ callee args) => by
    simp [TraverseStmt, TraverseStmt_of_aborted ctx callee,
      traverseStmts_of_aborted ctx args, tryTo]
  | some (.other cs) => by simp [TraverseStmt, traverseStmts_of_aborted ctx cs]
theorem traverseStmts_of_aborted (ctx : Ctx) :
    ∀ ss : List (Option Stmt), traverseStmts ctx true ss = some ⟨[], true⟩
  | [] => by simp [traverseStmts]
  | s :: rest => by
    simp [traverseStmts, TraverseStmt_of_aborted ctx s,
      traverseStmts_of_aborted ctx rest, tryTo]
end

theorem traverseInits_of_aborted (ctx : Ctx) (inits : List CtorInit) :
    traverseInits ctx true inits = some ⟨[], true⟩ := by
  induction inits with
  | nil => simp [traverseInits]
  | cons i rest ih =>
    cases i <;> simp [traverseInits, TraverseStmt_of_aborted, ih, tryTo]

theorem baseTraverseDecl_of_aborted (ctx : Ctx) (d : Decl) :
    baseTraverseDecl ctx true d = some ⟨[], true⟩ := by
  cases d <;>
    simp [baseTraverseDecl, traverseDecls_of_aborted, traverseInits_of_aborted,
      TraverseStmt_of_aborted, tryTo]

/-! ## Front-end driver and abort flag: the claims -/

/-- C11 fails on a non-empty buffer: `Clang::index` on `/proj/main.c` with the
unsaved buffer `int y;` builds its compilation database without the buffer, so
the compile command the front-end runs with has no mapped source, while the
database constructor, given the same buffer, installs the pair. -/
theorem index_drops_unsaved_buffer :
    (Clang.index failingRun mainSource "int y;").compilationDatabase.getAllCompileCommands.map
        CompileCommand.MappedSources = [[]] ∧
      (Clang.index failingRun mainSource "int y;").compilationDatabase.mUnsaved = "" ∧
      (RTagsCompilationDatabase.create mainSource "int y;").mCommand.MappedSources =
        [("/proj/main.c", "int y;")] := by
  decide

/-- C12 fails on a failed run: when the tool run on `/proj/main.c` returns the
error code `1`, `Clang::index` still returns `true`. -/
theorem index_returns_true_on_failed_run :
    (Clang.index failingRun mainSource "").toolResult = 1 ∧
      (Clang.index failingRun mainSource "").returned = true := by
  decide

/-- C13: with the abort flag set, `TraverseDecl(d)` on any declaration pointer,
null or not, emits nothing, dispatches nothing and returns `true`; what was
emitted before stays as it was and the walk goes on; and the enclosing generic
walk, every hook of which now does nothing, returns `true` with nothing
emitted, over a declaration's children, a run of sibling declarations and a
statement tree alike. -/
theorem TraverseDecl_aborted_is_noop (ctx : Ctx) (d : Option Decl) :
    TraverseDecl ctx true d = some ⟨[], true⟩ ∧
      Option.map (fun w => facts w.trace) (TraverseDecl ctx true d) = some [] ∧
      Option.map (fun w => dispatched w.trace) (TraverseDecl ctx true d) = some [] ∧
      (∀ before : Trace,
        tryTo (some ⟨before, true⟩) (TraverseDecl ctx true d) = some ⟨before, true⟩) ∧
      (∀ node : Decl, baseTraverseDecl ctx true node = some ⟨[], true⟩) ∧
      (∀ siblings : List (Option Decl), traverseDecls ctx true siblings = some ⟨[], true⟩) ∧
      (∀ s : Option Stmt, TraverseStmt ctx true s = some ⟨[], true⟩) := by
  have h := TraverseDecl_of_aborted ctx d
  refine ⟨h, ?_, ?_, ?_, baseTraverseDecl_of_aborted ctx, traverseDecls_of_aborted ctx,
    TraverseStmt_of_aborted ctx⟩
  · rw [h]; rfl
  · rw [h]; rfl
  · intro before
    rw [h]
    simp [tryTo]

end RTags
